import Mathlib

/-!
Shallow embedding of the OAuth 2.0 / SAML SSO server (NestJS + Prisma).

Modelling conventions:
* Machine time (`Date.now()`) is a `Nat` of milliseconds, passed explicitly.
* Random token generation (`cryptoService.generateSecureToken`) and JWT
  signing are passed in as explicit string parameters (oracles); freshness
  of generated tokens is a hypothesis where a theorem needs it.
* The Prisma store is an explicit `Db` record threaded through every
  operation; `findUnique` is `List.find?`, `delete` removes every record
  with the given unique key (on reachable states the key is unique, so
  this coincides with deleting the single row), `update` maps over the
  list replacing the matching record.
* NestJS exceptions become the `OAuthError` type returned in `Except`;
  an untyped JavaScript runtime error (e.g. calling `.split` on `null`)
  is the distinct constructor `OAuthError.typeError`.
* JavaScript truthiness on optional strings (`undefined`/`""` falsy) is
  modelled by `Option String` plus explicit emptiness checks.
-/

inductive OAuthError where
  | badRequest (msg : String)
  | unauthorized (msg : String)
  | notFound (msg : String)
  | typeError (msg : String)
deriving DecidableEq, Repr

def OAuthError.message : OAuthError → String
  | .badRequest m => m
  | .unauthorized m => m
  | .notFound m => m
  | .typeError m => m

def OAuthError.isUnauthorized : OAuthError → Bool
  | .unauthorized _ => true
  | _ => false

def isSuccess {ε α : Type} : Except ε α → Bool
  | .ok _ => true
  | .error _ => false

/-- Row of `sso_applications` (fields used by the OAuth core).
`scope` is `TEXT NULL` in the migration, hence `Option String`. -/
structure SsoApplication where
  id : Nat
  clientId : String
  clientSecret : String
  redirectUri : String
  scope : Option String
  status : String
  tokenExpirationTime : Nat
  refreshTokenEnabled : Bool
deriving DecidableEq, Repr

/-- Row of `authorization_codes` (fields used by the OAuth core). -/
structure AuthorizationCode where
  code : String
  userId : Nat
  applicationId : Nat
  redirectUri : String
  scope : String
  expiresAt : Nat
deriving DecidableEq, Repr

/-- Row of `refresh_tokens`; `revoked` is `BOOLEAN NOT NULL DEFAULT false`
in the migration. -/
structure RefreshTokenRec where
  token : String
  userId : Nat
  applicationId : Nat
  scope : String
  expiresAt : Nat
  revoked : Bool
deriving DecidableEq, Repr

/-- The persistent store visible to the OAuth service. -/
structure Db where
  applications : List SsoApplication
  authCodes : List AuthorizationCode
  refreshTokens : List RefreshTokenRec
  lastLogins : List Nat
deriving DecidableEq, Repr

/-- OAuthService `TokenRequest` interface (all fields required in TS). -/
structure TokenRequest where
  grant_type : String
  code : String
  redirect_uri : String
  client_id : String
  client_secret : String
deriving DecidableEq, Repr

/-- OAuthService `TokenResponse` interface. -/
structure TokenResponse where
  access_token : String
  token_type : String
  expires_in : Nat
  refresh_token : Option String
  scope : String
deriving DecidableEq, Repr

/-- OAuthService `AuthorizeRequest` interface (`scope`, `state` optional). -/
structure AuthorizeRequest where
  response_type : String
  client_id : String
  redirect_uri : String
  scope : Option String
  state : Option String
deriving DecidableEq, Repr

/-- SsoService.findByClientId: `findUnique` on `client_id`, throwing
NotFoundException when absent. -/
def SsoService.findByClientId (db : Db) (clientId : String) :
    Except OAuthError SsoApplication :=
  match db.applications.find? (fun a => a.clientId == clientId) with
  | some a => .ok a
  | none => .error (.notFound "SSO application not found")

/-- JavaScript `String.prototype.split` with a one-character separator,
written structurally so that it evaluates in the kernel: splits on every
occurrence of the separator, preserving empty segments (so
`jsSplit "" sep = [""]`), exactly as `"...".split(" ")` does in JS. -/
def jsSplitAux (sep : Char) : List Char → List Char → List String
  | [], acc => [String.mk acc.reverse]
  | c :: cs, acc =>
    if c = sep then String.mk acc.reverse :: jsSplitAux sep cs []
    else jsSplitAux sep cs (c :: acc)

def jsSplit (s : String) (sep : Char) : List String := jsSplitAux sep s.data []

/-- Requested scopes at `/authorize`: `request.scope ? request.scope.split(" ")
: ["read"]` — the empty string is falsy in JS, so it also yields the default. -/
def requestedScopesOf : Option String → List String
  | some s => if s = "" then ["read"] else jsSplit s ' '
  | none => ["read"]

/-- OAuthService.authorize (oauth.service.ts). Returns the result together
with the updated store. `authCodeFresh` stands for
`cryptoService.generateSecureToken(32)`. A `null` `application.scope`
makes `application.scope.split(" ")` throw a runtime TypeError, modelled
by `OAuthError.typeError`. -/
def OAuthService.authorize (db : Db) (request : AuthorizeRequest)
    (userId : Nat) (now : Nat) (authCodeFresh : String) :
    Except OAuthError (String × Option String) × Db :=
  if request.response_type ≠ "code" then
    (.error (.badRequest "Only \"code\" response type is supported"), db)
  else
    match db.applications.find? (fun a => a.clientId == request.client_id) with
    | none => (.error (.notFound "SSO application not found"), db)
    | some application =>
      if application.status ≠ "active" then
        (.error (.unauthorized "Application is not active"), db)
      else if request.redirect_uri ≠ application.redirectUri then
        (.error (.badRequest "Invalid redirect URI"), db)
      else
        let requestedScopes := requestedScopesOf request.scope
        match application.scope with
        | none =>
          (.error (.typeError "Cannot read properties of null (reading split)"), db)
        | some appScope =>
          let allowedScopes := jsSplit appScope ' '
          match requestedScopes.find? (fun s => !(allowedScopes.contains s)) with
          | some s =>
            (.error (.badRequest ("Scope \"" ++ s ++ "\" is not allowed")), db)
          | none =>
            (.ok (authCodeFresh, request.state),
             { db with authCodes := db.authCodes ++
                 [{ code := authCodeFresh
                    userId := userId
                    applicationId := application.id
                    redirectUri := request.redirect_uri
                    scope := " ".intercalate requestedScopes
                    expiresAt := now + 10 * 60 * 1000 }] })

/-- OAuthService.exchangeCodeForToken (oauth.service.ts).
`freshRefreshToken` stands for `generateSecureToken(64)` and `accessToken`
for `jwtService.sign(payload)`. The expired branch deletes the code as a
cleanup side effect; the success branch stores a refresh token when the
application has refresh enabled, deletes the used code, and records a
last-login row. -/
def OAuthService.exchangeCodeForToken (db : Db) (request : TokenRequest)
    (now : Nat) (freshRefreshToken accessToken : String) :
    Except OAuthError TokenResponse × Db :=
  if request.grant_type ≠ "authorization_code" then
    (.error (.badRequest "Only \"authorization_code\" grant type is supported"), db)
  else
    match db.applications.find? (fun a => a.clientId == request.client_id) with
    | none => (.error (.notFound "SSO application not found"), db)
    | some application =>
      if application.clientSecret ≠ request.client_secret then
        (.error (.unauthorized "Invalid client credentials"), db)
      else if application.status ≠ "active" then
        (.error (.unauthorized "Application is not active"), db)
      else
        match db.authCodes.find? (fun c => c.code == request.code) with
        | none => (.error (.unauthorized "Invalid authorization code"), db)
        | some authCode =>
          if authCode.expiresAt < now then
            (.error (.unauthorized "Authorization code has expired"),
             { db with authCodes :=
                 db.authCodes.filter (fun c => !(c.code == request.code)) })
          else if authCode.applicationId ≠ application.id then
            (.error (.unauthorized "Authorization code does not belong to this application"), db)
          else if authCode.redirectUri ≠ request.redirect_uri then
            (.error (.badRequest "Redirect URI mismatch"), db)
          else
            let db1 :=
              if application.refreshTokenEnabled then
                { db with refreshTokens := db.refreshTokens ++
                    [{ token := freshRefreshToken
                       userId := authCode.userId
                       applicationId := application.id
                       scope := authCode.scope
                       expiresAt := now + 30 * 24 * 60 * 60 * 1000
                       revoked := false }] }
              else db
            let db2 := { db1 with authCodes :=
                db1.authCodes.filter (fun c => !(c.code == request.code)) }
            let db3 := { db2 with lastLogins := db2.lastLogins ++ [authCode.userId] }
            (.ok { access_token := accessToken
                   token_type := "Bearer"
                   expires_in := application.tokenExpirationTime
                   refresh_token :=
                     if application.refreshTokenEnabled then some freshRefreshToken
                     else none
                   scope := authCode.scope }, db3)

/-- OAuthService.refreshToken (oauth.service.ts). `newRefreshToken` stands
for `generateSecureToken(64)`. Rotation is a Prisma `update` keyed on the
old token value, replacing `token` and `expiresAt` in place; the `revoked`
column is never read. -/
def OAuthService.refreshToken (db : Db)
    (refreshTokenValue clientId clientSecret : String) (now : Nat)
    (newRefreshToken accessToken : String) :
    Except OAuthError TokenResponse × Db :=
  match db.applications.find? (fun a => a.clientId == clientId) with
  | none => (.error (.notFound "SSO application not found"), db)
  | some application =>
    if application.clientSecret ≠ clientSecret then
      (.error (.unauthorized "Invalid client credentials"), db)
    else if !application.refreshTokenEnabled then
      (.error (.badRequest "Refresh tokens are not enabled for this application"), db)
    else
      match db.refreshTokens.find? (fun r => r.token == refreshTokenValue) with
      | none => (.error (.unauthorized "Invalid refresh token"), db)
      | some stored =>
        if stored.expiresAt < now then
          (.error (.unauthorized "Refresh token has expired"),
           { db with refreshTokens :=
               db.refreshTokens.filter (fun r => !(r.token == refreshTokenValue)) })
        else if stored.applicationId ≠ application.id then
          (.error (.unauthorized "Refresh token does not belong to this application"), db)
        else
          (.ok { access_token := accessToken
                 token_type := "Bearer"
                 expires_in := application.tokenExpirationTime
                 refresh_token := some newRefreshToken
                 scope := stored.scope },
           { db with refreshTokens := db.refreshTokens.map (fun r =>
               if r.token == refreshTokenValue then
                 { r with token := newRefreshToken
                          expiresAt := now + 30 * 24 * 60 * 60 * 1000 }
               else r) })

/-- JavaScript truthiness for an optional string: `undefined` and `""` are
falsy. -/
def truthy : Option String → Bool
  | some s => s ≠ ""
  | none => false

/-- The controller sets a `state` query parameter only when the value is
truthy (`if (result.state)` / `if (query.state)`). -/
def truthyOpt (o : Option String) : Option String :=
  if truthy o then o else none

/-- Query object of `GET /oauth/authorize`; every parameter may be absent. -/
structure AuthorizeQuery where
  response_type : Option String
  client_id : Option String
  redirect_uri : Option String
  scope : Option String
  state : Option String
deriving DecidableEq, Repr

/-- HTTP-level outcome of the `/authorize` controller: a success redirect
carrying `code` (and `state`), an error redirect carrying `error` and
`error_description`, or an unhandled crash (the catch block itself throws
because `new URL(query.redirect_uri)` fails when the URI is absent). -/
inductive AuthorizeHttpOutcome where
  | redirectSuccess (uri code : String) (state : Option String)
  | redirectError (uri error errorDescription : String) (state : Option String)
  | serverCrash
deriving DecidableEq, Repr

/-- Body of the `try` block of OAuthController.authorize: the
missing-required-parameters check followed by the service call. -/
def OAuthController.authorizeTry (db : Db) (query : AuthorizeQuery)
    (userId now : Nat) (authCodeFresh : String) :
    Except OAuthError (String × Option String) × Db :=
  match query.response_type, query.client_id, query.redirect_uri with
  | some rt, some cid, some ru =>
    if rt = "" ∨ cid = "" ∨ ru = "" then
      (.error (.badRequest "Missing required parameters"), db)
    else
      OAuthService.authorize db
        { response_type := rt, client_id := cid, redirect_uri := ru
          scope := query.scope, state := query.state } userId now authCodeFresh
  | _, _, _ => (.error (.badRequest "Missing required parameters"), db)

/-- OAuthController.authorize (oauth.controller.ts): the whole `try` body is
wrapped in a catch that redirects to `query.redirect_uri` with
`error=server_error` and `error_description=error.message` — for every
error, including an unknown `client_id`. Both the success path and the
catch construct `new URL(query.redirect_uri)`; `parseUrl` is the oracle
for whether the WHATWG URL constructor accepts that string. When it
throws — the value is absent (`new URL(undefined)`) or unparseable (for
example `""` or `"foo"`) — the catch block itself crashes and a direct
non-redirect HTTP 500 results; on the success path the store mutation has
already happened when the crash occurs. -/
def OAuthController.authorize (db : Db) (query : AuthorizeQuery)
    (userId now : Nat) (authCodeFresh : String) (parseUrl : String → Bool) :
    AuthorizeHttpOutcome × Db :=
  match OAuthController.authorizeTry db query userId now authCodeFresh with
  | (.ok result, db1) =>
    if parseUrl (query.redirect_uri.getD "") then
      (.redirectSuccess (query.redirect_uri.getD "") result.fst
         (truthyOpt result.snd), db1)
    else (.serverCrash, db1)
  | (.error e, db1) =>
    match query.redirect_uri with
    | some ru =>
      if parseUrl ru then
        (.redirectError ru "server_error" e.message (truthyOpt query.state), db1)
      else (.serverCrash, db1)
    | none => (.serverCrash, db1)

/-- Body of `POST /oauth/token` as received over the wire (any field may be
absent; the TS interface types them required but the runtime object is
whatever the client sent). -/
structure TokenBody where
  grant_type : Option String
  code : Option String
  redirect_uri : Option String
  client_id : Option String
  client_secret : Option String
deriving DecidableEq, Repr

/-- OAuthController.token (oauth.controller.ts): checks the five required
parameters for truthiness, then always delegates to
OAuthService.exchangeCodeForToken — there is no dispatch to the refresh
operation here; a non-authorization_code grant_type is rejected inside
the service. -/
def OAuthController.token (db : Db) (body : TokenBody) (now : Nat)
    (freshRefreshToken accessToken : String) :
    Except OAuthError TokenResponse × Db :=
  match body.grant_type, body.code, body.client_id, body.client_secret,
      body.redirect_uri with
  | some gt, some c, some cid, some cs, some ru =>
    if gt = "" ∨ c = "" ∨ cid = "" ∨ cs = "" ∨ ru = "" then
      (.error (.badRequest "Missing required parameters"), db)
    else
      OAuthService.exchangeCodeForToken db
        { grant_type := gt, code := c, redirect_uri := ru
          client_id := cid, client_secret := cs } now freshRefreshToken accessToken
  | _, _, _, _, _ => (.error (.badRequest "Missing required parameters"), db)

/-- Body of `POST /oauth/token/refresh`. -/
structure RefreshBody where
  grant_type : Option String
  refresh_token : Option String
  client_id : Option String
  client_secret : Option String
deriving DecidableEq, Repr

/-- OAuthController.refreshToken (oauth.controller.ts): the separate
`/oauth/token/refresh` endpoint; requires `grant_type=refresh_token`,
checks the remaining parameters for truthiness, then delegates to
OAuthService.refreshToken. -/
def OAuthController.refreshToken (db : Db) (body : RefreshBody) (now : Nat)
    (newRefreshToken accessToken : String) :
    Except OAuthError TokenResponse × Db :=
  if body.grant_type ≠ some "refresh_token" then
    (.error (.badRequest "Invalid grant type"), db)
  else if !truthy body.refresh_token ∨ !truthy body.client_id ∨
      !truthy body.client_secret then
    (.error (.badRequest "Missing required parameters"), db)
  else
    OAuthService.refreshToken db (body.refresh_token.getD "")
      (body.client_id.getD "") (body.client_secret.getD "") now
      newRefreshToken accessToken

/-- Row of `users` (fields used by the SAML bridge). -/
structure User where
  id : Nat
  email : String
  firstName : Option String
  lastName : Option String
  samlUserId : Option String
deriving DecidableEq, Repr

/-- The SAML attribute map, restricted to the keys the bridge reads: the
short names and the long `schemas.xmlsoap.org` claim URIs. -/
structure SamlAttributes where
  email : Option String
  emailClaim : Option String
  firstName : Option String
  firstNameClaim : Option String
  lastName : Option String
  lastNameClaim : Option String
deriving DecidableEq, Repr

/-- SamlService `SamlUser` interface (nameID plus attribute map). -/
structure SamlUser where
  nameID : String
  attributes : SamlAttributes
deriving DecidableEq, Repr

/-- JavaScript `a || b` on optional strings: the empty string is falsy. -/
def jsOr (a b : Option String) : Option String :=
  match a with
  | some s => if s = "" then b else some s
  | none => b

/-- UserService.findBySamlUserId: `findUnique` on `saml_user_id`. -/
def UserService.findBySamlUserId (users : List User) (samlUserId : String) :
    Option User :=
  users.find? (fun u => u.samlUserId == some samlUserId)

/-- UserService.findByEmail: `findUnique` on `email`. -/
def UserService.findByEmail (users : List User) (email : String) :
    Option User :=
  users.find? (fun u => u.email == email)

/-- The `userData` object built by SamlService.createOrUpdateUser:
`email: attrs.email || attrs[emailClaim] || nameID` — the whole chain is
falsy-aware, so an empty-string email claim falls through to the nameID;
names via the same `||` chains keep their raw (possibly empty-string)
value, and `samlUserId: nameID`. -/
structure SamlUserData where
  email : String
  firstName : Option String
  lastName : Option String
  samlUserId : String
deriving DecidableEq, Repr

def samlUserDataOf (samlUser : SamlUser) : SamlUserData :=
  { email := match truthyOpt (jsOr samlUser.attributes.email
        samlUser.attributes.emailClaim) with
      | some e => e
      | none => samlUser.nameID
    firstName := jsOr samlUser.attributes.firstName
      samlUser.attributes.firstNameClaim
    lastName := jsOr samlUser.attributes.lastName
      samlUser.attributes.lastNameClaim
    samlUserId := samlUser.nameID }

/-- Prisma `update` with possibly-undefined fields: an `undefined` value
leaves the stored column unchanged. -/
def applySamlUserData (d : SamlUserData) (u : User) : User :=
  { u with email := d.email
           firstName := match d.firstName with
             | some f => some f
             | none => u.firstName
           lastName := match d.lastName with
             | some l => some l
             | none => u.lastName
           samlUserId := some d.samlUserId }

/-- UserService.update via `prisma.user.update({where:{id}})`:
`users.email` and `users.saml_user_id` are unique columns
(`findUnique` is keyed on each), so a write moving the user onto an
email or samlUserId already held by ANOTHER row throws Prisma's
unique-constraint (P2002) error naming the violated field; an unknown id
throws record-not-found. Errors are the `Except.error` branch. -/
def UserService.update (users : List User) (id : Nat) (d : SamlUserData) :
    Except String (User × List User) :=
  if users.any (fun v => v.id != id && v.email == d.email) then
    .error "Unique constraint failed on the fields: (email)"
  else if users.any (fun v => v.id != id && v.samlUserId == some d.samlUserId) then
    .error "Unique constraint failed on the fields: (samlUserId)"
  else
    match users.find? (fun v => v.id == id) with
    | some u =>
      .ok (applySamlUserData d u,
           users.map (fun v => if v.id = id then applySamlUserData d v else v))
    | none => .error "Record to update not found"

/-- UserService.create via `prisma.user.create`: throws the same
unique-constraint error when the new row's email or samlUserId is
already taken. `freshId` is the generated primary key. -/
def UserService.create (users : List User) (freshId : Nat) (d : SamlUserData) :
    Except String (User × List User) :=
  if users.any (fun v => v.email == d.email) then
    .error "Unique constraint failed on the fields: (email)"
  else if users.any (fun v => v.samlUserId == some d.samlUserId) then
    .error "Unique constraint failed on the fields: (samlUserId)"
  else
    .ok ({ id := freshId, email := d.email, firstName := d.firstName
           lastName := d.lastName, samlUserId := some d.samlUserId },
         users ++
           [{ id := freshId, email := d.email, firstName := d.firstName
              lastName := d.lastName, samlUserId := some d.samlUserId }])

/-- SamlService.createOrUpdateUser (saml.service.ts): resolves an existing
user by `samlUserId = nameID` FIRST; only when that finds nothing, and
the email-attribute chain is truthy (`if (email)` — an empty string is
skipped), does it fall back to a lookup by that email; then updates the
resolved user (or creates a new one with `freshId`) from the assertion
fields. The underlying Prisma write can throw a unique-constraint error,
surfaced as `Except.error`. -/
def SamlService.createOrUpdateUser (users : List User) (samlUser : SamlUser)
    (freshId : Nat) : Except String (User × List User) :=
  let byNameId := UserService.findBySamlUserId users samlUser.nameID
  let resolved :=
    match byNameId with
    | some u => some u
    | none =>
      match truthyOpt (jsOr samlUser.attributes.email
          samlUser.attributes.emailClaim) with
      | some email => UserService.findByEmail users email
      | none => none
  let d := samlUserDataOf samlUser
  match resolved with
  | some u => UserService.update users u.id d
  | none => UserService.create users freshId d

/-- Row of `webhook_logs` (fields driving the retry state machine);
`attempt` has SQL default 1, set on insert since `logWebhook` omits it. -/
structure WebhookLog where
  id : Nat
  status : String
  attempt : Nat
  nextRetryAt : Option Nat
  deliveredAt : Option Nat
deriving DecidableEq, Repr

/-- WebhookService.sendWebhook outcome recording (webhook.service.ts): a
successful POST logs a `delivered` row; a failed POST logs a `failed` row
with `next_retry_at = now + 5 minutes`. `attempt` takes the column
default 1 in both cases. -/
def WebhookService.sendWebhook (logs : List WebhookLog) (id now : Nat)
    (deliveryOk : Bool) : List WebhookLog :=
  if deliveryOk then
    logs ++ [{ id := id, status := "delivered", attempt := 1
               nextRetryAt := none, deliveredAt := some now }]
  else
    logs ++ [{ id := id, status := "failed", attempt := 1
               nextRetryAt := some (now + 5 * 60 * 1000), deliveredAt := none }]

/-- Selection predicate of the retry sweep's `findMany`: status `failed`,
`next_retry_at <= now` (a NULL column never satisfies `lte`), and
`attempt < 3`. -/
def retryDue (now : Nat) (l : WebhookLog) : Bool :=
  l.status == "failed" &&
    (match l.nextRetryAt with
     | some t => t ≤ now
     | none => false) &&
    l.attempt < 3

/-- WebhookService.retryFailedWebhooks (webhook.service.ts): re-POSTs every
due record (`deliver` is the outcome oracle, keyed by record id). Success
sets status `delivered` and increments `attempt`; failure increments
`attempt` and sets `next_retry_at` to NULL once the pre-increment attempt
count has reached 2 (so the stored count reaches 3), else to the
exponential backoff `now + 2^attempt * 5 minutes`. Also returns the list
of record ids on which a delivery attempt was performed. -/
def WebhookService.retryStep (now : Nat) (deliver : Nat → Bool)
    (l : WebhookLog) : WebhookLog :=
  if retryDue now l then
    if deliver l.id then
      { l with status := "delivered", attempt := l.attempt + 1
               deliveredAt := some now }
    else
      { l with attempt := l.attempt + 1
               nextRetryAt :=
                 if l.attempt ≥ 2 then none
                 else some (now + 2 ^ l.attempt * 5 * 60 * 1000) }
  else l

def WebhookService.retryFailedWebhooks (logs : List WebhookLog) (now : Nat)
    (deliver : Nat → Bool) : List WebhookLog × List Nat :=
  (logs.map (WebhookService.retryStep now deliver),
   (logs.filter (retryDue now)).map (fun l => l.id))

/-! ### Helper lemmas -/

lemma find?_filter_code (l : List AuthorizationCode) (c : String) :
    (l.filter (fun x => !(x.code == c))).find? (fun x => x.code == c) = none := by
  apply List.find?_eq_none.mpr
  intro x hx
  have hmem := List.mem_filter.mp hx
  simpa using hmem.2

lemma exchange_success_eq (db : Db) (req : TokenRequest) (now : Nat)
    (f a : String) (app : SsoApplication) (ac : AuthorizationCode)
    (hgrant : req.grant_type = "authorization_code")
    (happ : db.applications.find? (fun x => x.clientId == req.client_id) = some app)
    (hsec : app.clientSecret = req.client_secret)
    (hact : app.status = "active")
    (hcode : db.authCodes.find? (fun c => c.code == req.code) = some ac)
    (hnexp : ¬ ac.expiresAt < now)
    (happid : ac.applicationId = app.id)
    (hred : ac.redirectUri = req.redirect_uri) :
    OAuthService.exchangeCodeForToken db req now f a =
      (.ok { access_token := a, token_type := "Bearer"
             expires_in := app.tokenExpirationTime
             refresh_token := if app.refreshTokenEnabled then some f else none
             scope := ac.scope },
       { applications := db.applications
         authCodes := db.authCodes.filter (fun c => !(c.code == req.code))
         refreshTokens :=
           if app.refreshTokenEnabled then
             db.refreshTokens ++
               [{ token := f, userId := ac.userId, applicationId := app.id
                  scope := ac.scope, expiresAt := now + 30 * 24 * 60 * 60 * 1000
                  revoked := false }]
           else db.refreshTokens
         lastLogins := db.lastLogins ++ [ac.userId] }) := by
  simp [OAuthService.exchangeCodeForToken, hgrant, happ, hsec, hact, hcode,
    hnexp, happid, hred, apply_ite]

lemma exchange_not_ok_of_code_absent (db : Db) (req : TokenRequest)
    (now : Nat) (f a : String)
    (h : db.authCodes.find? (fun c => c.code == req.code) = none) :
    isSuccess (OAuthService.exchangeCodeForToken db req now f a).fst = false := by
  unfold OAuthService.exchangeCodeForToken
  repeat' split
  all_goals simp_all [isSuccess]

lemma exchange_invalid_code_eq (db : Db) (req : TokenRequest) (now : Nat)
    (f a : String) (app : SsoApplication)
    (hgrant : req.grant_type = "authorization_code")
    (happ : db.applications.find? (fun x => x.clientId == req.client_id) = some app)
    (hsec : app.clientSecret = req.client_secret)
    (hact : app.status = "active")
    (hnone : db.authCodes.find? (fun c => c.code == req.code) = none) :
    (OAuthService.exchangeCodeForToken db req now f a).fst =
      .error (.unauthorized "Invalid authorization code") := by
  simp [OAuthService.exchangeCodeForToken, hgrant, happ, hsec, hact, hnone]

/-! ### C1: authorization codes are single-use -/

/-- C1: authorization codes are single-use. When
OAuthService.exchangeCodeForToken succeeds on a stored code, the returned
store no longer contains that code (the record is deleted before the
function returns), any subsequent exchange presenting the same code value
(in any request) cannot succeed, and replaying the identical request
fails with the not-found invalid-grant error
"Invalid authorization code". -/
theorem exchange_code_single_use (db : Db) (req : TokenRequest)
    (now now2 : Nat) (f a f2 a2 : String) (req2 : TokenRequest)
    (now3 : Nat) (f3 a3 : String)
    (app : SsoApplication) (ac : AuthorizationCode)
    (hgrant : req.grant_type = "authorization_code")
    (happ : db.applications.find? (fun x => x.clientId == req.client_id) = some app)
    (hsec : app.clientSecret = req.client_secret)
    (hact : app.status = "active")
    (hcode : db.authCodes.find? (fun c => c.code == req.code) = some ac)
    (hnexp : ¬ ac.expiresAt < now)
    (happid : ac.applicationId = app.id)
    (hred : ac.redirectUri = req.redirect_uri)
    (hc2 : req2.code = req.code) :
    isSuccess (OAuthService.exchangeCodeForToken db req now f a).fst = true ∧
    (OAuthService.exchangeCodeForToken db req now f a).snd.authCodes.find?
        (fun c => c.code == req.code) = none ∧
    isSuccess (OAuthService.exchangeCodeForToken
        (OAuthService.exchangeCodeForToken db req now f a).snd
        req2 now2 f2 a2).fst = false ∧
    (OAuthService.exchangeCodeForToken
        (OAuthService.exchangeCodeForToken db req now f a).snd
        req now3 f3 a3).fst =
      .error (.unauthorized "Invalid authorization code") := by
  have hev := exchange_success_eq db req now f a app ac hgrant happ hsec hact
    hcode hnexp happid hred
  refine ⟨by rw [hev]; rfl, ?_, ?_, ?_⟩
  · rw [hev]
    exact find?_filter_code db.authCodes req.code
  · apply exchange_not_ok_of_code_absent
    rw [hev, hc2]
    exact find?_filter_code db.authCodes req.code
  · apply exchange_invalid_code_eq _ _ _ _ _ app hgrant _ hsec hact
    · rw [hev]
      exact find?_filter_code db.authCodes req.code
    · rw [hev]
      exact happ

/-- Concrete registered application used by the witnesses. -/
def cApp : SsoApplication :=
  { id := 1, clientId := "cid", clientSecret := "sec"
    redirectUri := "https://app.test/cb", scope := some "read write"
    status := "active", tokenExpirationTime := 3600
    refreshTokenEnabled := true }

/-- Concrete stored authorization code used by the witnesses. -/
def cAc : AuthorizationCode :=
  { code := "abc", userId := 7, applicationId := 1
    redirectUri := "https://app.test/cb", scope := "read", expiresAt := 1000 }

/-- Concrete store used by the witnesses. -/
def cDb : Db :=
  { applications := [cApp], authCodes := [cAc], refreshTokens := []
    lastLogins := [] }

/-- Concrete valid token request used by the witnesses. -/
def cReq : TokenRequest :=
  { grant_type := "authorization_code", code := "abc"
    redirect_uri := "https://app.test/cb", client_id := "cid"
    client_secret := "sec" }

/-- Witness for C1 on a concrete store: a valid code exchanges once, is
gone afterwards, and every replay fails. -/
theorem exchange_code_single_use_witness :
    isSuccess (OAuthService.exchangeCodeForToken cDb cReq 500 "rt1" "at1").fst = true ∧
    (OAuthService.exchangeCodeForToken cDb cReq 500 "rt1" "at1").snd.authCodes.find?
        (fun c => c.code == cReq.code) = none ∧
    isSuccess (OAuthService.exchangeCodeForToken
        (OAuthService.exchangeCodeForToken cDb cReq 500 "rt1" "at1").snd
        cReq 600 "rt2" "at2").fst = false ∧
    (OAuthService.exchangeCodeForToken
        (OAuthService.exchangeCodeForToken cDb cReq 500 "rt1" "at1").snd
        cReq 700 "rt3" "at3").fst =
      .error (.unauthorized "Invalid authorization code") :=
  exchange_code_single_use cDb cReq 500 600 "rt1" "at1" "rt2" "at2" cReq 700
    "rt3" "at3" cApp cAc (by decide) (by decide) (by decide) (by decide)
    (by decide) (by decide) (by decide) (by decide) (by decide)

lemma find?_rotate_old (l : List RefreshTokenRec) (tok new : String) (E : Nat)
    (hne : new ≠ tok) :
    (l.map (fun r => if r.token == tok then
        { r with token := new, expiresAt := E } else r)).find?
      (fun r => r.token == tok) = none := by
  apply List.find?_eq_none.mpr
  intro x hx
  rcases List.mem_map.mp hx with ⟨r, hr, rfl⟩
  by_cases h : r.token == tok <;> simp [h, hne]

lemma find?_mem_congr {α : Type} (l : List α) (p q : α → Bool)
    (h : ∀ x ∈ l, p x = q x) : l.find? p = l.find? q := by
  induction l with
  | nil => rfl
  | cons x xs ih =>
    have hx := h x (List.mem_cons_self x xs)
    by_cases hp : p x = true
    · rw [List.find?_cons_of_pos _ hp, List.find?_cons_of_pos _ (hx ▸ hp)]
    · rw [List.find?_cons_of_neg _ hp, List.find?_cons_of_neg _ (by rw [← hx]; exact hp)]
      exact ih (fun y hy => h y (List.mem_cons_of_mem x hy))

lemma find?_rotate_new (l : List RefreshTokenRec) (tok new : String) (E : Nat)
    (hfresh : ∀ r ∈ l, r.token ≠ new) :
    (l.map (fun r => if r.token == tok then
        { r with token := new, expiresAt := E } else r)).find?
      (fun r => r.token == new) =
    (l.find? (fun r => r.token == tok)).map
      (fun r => { r with token := new, expiresAt := E }) := by
  rw [List.find?_map]
  rw [find?_mem_congr l _ (fun r => r.token == tok) (by
    intro x hx
    by_cases h : x.token = tok <;> simp [h, hfresh x hx])]
  cases hf : l.find? (fun r => r.token == tok) with
  | none => rfl
  | some r =>
    have hr := List.find?_some (p := fun r : RefreshTokenRec => r.token == tok) hf
    simp only [beq_iff_eq] at hr
    simp [hr]

lemma refresh_success_eq (db : Db) (tok cid cs : String) (now : Nat)
    (new acc : String) (app : SsoApplication) (rt : RefreshTokenRec)
    (happ : db.applications.find? (fun a => a.clientId == cid) = some app)
    (hsec : app.clientSecret = cs)
    (hen : app.refreshTokenEnabled = true)
    (hfind : db.refreshTokens.find? (fun r => r.token == tok) = some rt)
    (hnexp : ¬ rt.expiresAt < now)
    (happid : rt.applicationId = app.id) :
    OAuthService.refreshToken db tok cid cs now new acc =
      (.ok { access_token := acc, token_type := "Bearer"
             expires_in := app.tokenExpirationTime
             refresh_token := some new, scope := rt.scope },
       { applications := db.applications, authCodes := db.authCodes
         refreshTokens := db.refreshTokens.map (fun r =>
           if r.token == tok then
             { r with token := new, expiresAt := now + 30 * 24 * 60 * 60 * 1000 }
           else r)
         lastLogins := db.lastLogins }) := by
  simp [OAuthService.refreshToken, happ, hsec, hen, hfind, hnexp, happid]

lemma refresh_invalid_eq (db : Db) (tok cid cs : String) (now : Nat)
    (new acc : String) (app : SsoApplication)
    (happ : db.applications.find? (fun a => a.clientId == cid) = some app)
    (hsec : app.clientSecret = cs)
    (hen : app.refreshTokenEnabled = true)
    (hnone : db.refreshTokens.find? (fun r => r.token == tok) = none) :
    OAuthService.refreshToken db tok cid cs now new acc =
      (.error (.unauthorized "Invalid refresh token"), db) := by
  simp [OAuthService.refreshToken, happ, hsec, hen, hnone]

/-! ### C2: refresh token rotation chain -/

/-- C2: refresh token rotation chain. A successful refresh on a stored
token returns a rotated refresh token value `new` different from the old
value, after which presenting the old value fails with the invalid-token
error, presenting the new value succeeds once more, and presenting the
new value yet again (after that second rotation) fails. Freshness of the
generated values (`new ≠ tok`, `new` not already stored, `new2 ≠ new`)
models the collision-freeness of `generateSecureToken`. -/
theorem refresh_rotation_chain
    (db : Db) (tok cid cs : String) (now now2 now3 : Nat)
    (new acc new2 acc2 new3 acc3 newX accX : String)
    (app : SsoApplication) (rt : RefreshTokenRec)
    (happ : db.applications.find? (fun a => a.clientId == cid) = some app)
    (hsec : app.clientSecret = cs)
    (hen : app.refreshTokenEnabled = true)
    (hfind : db.refreshTokens.find? (fun r => r.token == tok) = some rt)
    (hnexp : ¬ rt.expiresAt < now)
    (happid : rt.applicationId = app.id)
    (hne1 : new ≠ tok)
    (hfresh1 : ∀ r ∈ db.refreshTokens, r.token ≠ new)
    (hne2 : new2 ≠ new)
    (hnexp2 : ¬ now + 30 * 24 * 60 * 60 * 1000 < now2) :
    ((OAuthService.refreshToken db tok cid cs now new acc).fst =
        .ok { access_token := acc, token_type := "Bearer"
              expires_in := app.tokenExpirationTime
              refresh_token := some new, scope := rt.scope } ∧ new ≠ tok) ∧
    (OAuthService.refreshToken
        (OAuthService.refreshToken db tok cid cs now new acc).snd
        tok cid cs now2 newX accX).fst =
      .error (.unauthorized "Invalid refresh token") ∧
    isSuccess (OAuthService.refreshToken
        (OAuthService.refreshToken db tok cid cs now new acc).snd
        new cid cs now2 new2 acc2).fst = true ∧
    (OAuthService.refreshToken
        (OAuthService.refreshToken
          (OAuthService.refreshToken db tok cid cs now new acc).snd
          new cid cs now2 new2 acc2).snd
        new cid cs now3 new3 acc3).fst =
      .error (.unauthorized "Invalid refresh token") := by
  have hev := refresh_success_eq db tok cid cs now new acc app rt happ hsec hen
    hfind hnexp happid
  have happs : (OAuthService.refreshToken db tok cid cs now new acc).snd.applications =
      db.applications := by rw [hev]
  have htoks : (OAuthService.refreshToken db tok cid cs now new acc).snd.refreshTokens =
      db.refreshTokens.map (fun r =>
        if r.token == tok then
          { r with token := new, expiresAt := now + 30 * 24 * 60 * 60 * 1000 }
        else r) := by rw [hev]
  have happ1 : (OAuthService.refreshToken db tok cid cs now new acc).snd.applications.find?
      (fun a => a.clientId == cid) = some app := by rw [happs]; exact happ
  have hfind1 : (OAuthService.refreshToken db tok cid cs now new acc).snd.refreshTokens.find?
      (fun r => r.token == new) =
      some { rt with token := new, expiresAt := now + 30 * 24 * 60 * 60 * 1000 } := by
    rw [htoks, find?_rotate_new db.refreshTokens tok new _ hfresh1, hfind]
    rfl
  have hev2 := refresh_success_eq
    (OAuthService.refreshToken db tok cid cs now new acc).snd
    new cid cs now2 new2 acc2 app
    { rt with token := new, expiresAt := now + 30 * 24 * 60 * 60 * 1000 }
    happ1 hsec hen hfind1 hnexp2 happid
  have happs2 : (OAuthService.refreshToken
      (OAuthService.refreshToken db tok cid cs now new acc).snd
      new cid cs now2 new2 acc2).snd.applications =
      (OAuthService.refreshToken db tok cid cs now new acc).snd.applications := by
    rw [hev2]
  have htoks2 : (OAuthService.refreshToken
      (OAuthService.refreshToken db tok cid cs now new acc).snd
      new cid cs now2 new2 acc2).snd.refreshTokens =
      (OAuthService.refreshToken db tok cid cs now new acc).snd.refreshTokens.map
        (fun r => if r.token == new then
          { r with token := new2, expiresAt := now2 + 30 * 24 * 60 * 60 * 1000 }
        else r) := by rw [hev2]
  refine ⟨⟨by rw [hev], hne1⟩, ?_, ?_, ?_⟩
  · exact congrArg Prod.fst (refresh_invalid_eq
      (OAuthService.refreshToken db tok cid cs now new acc).snd
      tok cid cs now2 newX accX app happ1 hsec hen
      (by rw [htoks]; exact find?_rotate_old db.refreshTokens tok new _ hne1))
  · rw [hev2]
    rfl
  · exact congrArg Prod.fst (refresh_invalid_eq
      (OAuthService.refreshToken
        (OAuthService.refreshToken db tok cid cs now new acc).snd
        new cid cs now2 new2 acc2).snd
      new cid cs now3 new3 acc3 app
      (by rw [happs2]; exact happ1) hsec hen
      (by rw [htoks2]; exact find?_rotate_old _ new new2 _ hne2))

/-- Concrete stored refresh token used by the witnesses. -/
def cRt : RefreshTokenRec :=
  { token := "rt0", userId := 7, applicationId := 1, scope := "read"
    expiresAt := 1000000000000, revoked := false }

/-- Concrete store holding one refresh token, used by the witnesses. -/
def cDbR : Db :=
  { applications := [cApp], authCodes := [], refreshTokens := [cRt]
    lastLogins := [] }

/-- Witness for C2 on a concrete store: the rotation chain
rt0 → rtA → rtB behaves exactly as stated. -/
theorem refresh_rotation_chain_witness :
    ((OAuthService.refreshToken cDbR "rt0" "cid" "sec" 500 "rtA" "atA").fst =
        .ok { access_token := "atA", token_type := "Bearer"
              expires_in := cApp.tokenExpirationTime
              refresh_token := some "rtA", scope := cRt.scope } ∧
      ("rtA" : String) ≠ "rt0") ∧
    (OAuthService.refreshToken
        (OAuthService.refreshToken cDbR "rt0" "cid" "sec" 500 "rtA" "atA").snd
        "rt0" "cid" "sec" 600 "rtX" "atX").fst =
      .error (.unauthorized "Invalid refresh token") ∧
    isSuccess (OAuthService.refreshToken
        (OAuthService.refreshToken cDbR "rt0" "cid" "sec" 500 "rtA" "atA").snd
        "rtA" "cid" "sec" 600 "rtB" "atB").fst = true ∧
    (OAuthService.refreshToken
        (OAuthService.refreshToken
          (OAuthService.refreshToken cDbR "rt0" "cid" "sec" 500 "rtA" "atA").snd
          "rtA" "cid" "sec" 600 "rtB" "atB").snd
        "rtA" "cid" "sec" 700 "rtC" "atC").fst =
      .error (.unauthorized "Invalid refresh token") :=
  refresh_rotation_chain cDbR "rt0" "cid" "sec" 500 600 700 "rtA" "atA" "rtB"
    "atB" "rtC" "atC" "rtX" "atX" cApp cRt (by decide) (by decide) (by decide)
    (by decide) (by decide) (by decide) (by decide) (by decide) (by decide)
    (by decide)

/-! ### C3: revoked refresh tokens -/

/-- Concrete stored refresh token with the `revoked` flag set. -/
def cRtRev : RefreshTokenRec :=
  { token := "rtrev", userId := 7, applicationId := 1, scope := "read"
    expiresAt := 1000000000000, revoked := true }

/-- Concrete store holding only the revoked refresh token. -/
def cDbRev : Db :=
  { applications := [cApp], authCodes := [], refreshTokens := [cRtRev]
    lastLogins := [] }

/-- Counterexample for C3: a stored refresh token whose `revoked` flag is
set still refreshes successfully — OAuthService.refreshToken never reads
the `revoked` column, so a revoked-but-present token mints a new access
token, contradicting the claim that it must fail with an invalid-token
error. -/
theorem refresh_revoked_flag_counterexample :
    cRtRev.revoked = true ∧
    isSuccess (OAuthService.refreshToken cDbRev "rtrev" "cid" "sec" 500
      "rtN" "atN").fst = true := by decide

/-- C3 amended: a refresh token value absent from the store (which is how
revocation actually manifests, since `/oauth/revoke` deletes the record)
fails with the invalid-token error and leaves the store unchanged, so no
token is minted; but the `revoked` column itself is never consulted — any
present, unexpired, client-matching record refreshes successfully
regardless of its `revoked` flag. -/
theorem refresh_absent_rejected_revoked_ignored
    (db : Db) (tok cid cs : String) (now : Nat) (new acc : String)
    (app : SsoApplication) (rt : RefreshTokenRec)
    (happ : db.applications.find? (fun a => a.clientId == cid) = some app)
    (hsec : app.clientSecret = cs)
    (hen : app.refreshTokenEnabled = true) :
    (db.refreshTokens.find? (fun r => r.token == tok) = none →
      OAuthService.refreshToken db tok cid cs now new acc =
        (.error (.unauthorized "Invalid refresh token"), db)) ∧
    (db.refreshTokens.find? (fun r => r.token == tok) = some rt →
      ¬ rt.expiresAt < now → rt.applicationId = app.id →
      isSuccess (OAuthService.refreshToken db tok cid cs now new acc).fst = true) := by
  constructor
  · intro hnone
    exact refresh_invalid_eq db tok cid cs now new acc app happ hsec hen hnone
  · intro hfind hnexp happid
    rw [refresh_success_eq db tok cid cs now new acc app rt happ hsec hen hfind
      hnexp happid]
    rfl

/-- Witness for the amended C3: an absent token value is rejected with the
store unchanged, while the present-but-revoked token succeeds. -/
theorem refresh_absent_rejected_revoked_ignored_witness :
    (OAuthService.refreshToken cDbRev "nope" "cid" "sec" 500 "rtN" "atN" =
      (.error (.unauthorized "Invalid refresh token"), cDbRev)) ∧
    isSuccess (OAuthService.refreshToken cDbRev "rtrev" "cid" "sec" 500
      "rtN" "atN").fst = true :=
  ⟨(refresh_absent_rejected_revoked_ignored cDbRev "nope" "cid" "sec" 500
      "rtN" "atN" cApp cRtRev (by decide) (by decide) (by decide)).1 (by decide),
   (refresh_absent_rejected_revoked_ignored cDbRev "rtrev" "cid" "sec" 500
      "rtN" "atN" cApp cRtRev (by decide) (by decide) (by decide)).2
     (by decide) (by decide) (by decide)⟩

/-! ### C4: missing vs expired grant values -/

lemma exchange_expired_fst (db : Db) (req : TokenRequest) (now : Nat)
    (f a : String) (app : SsoApplication) (ac : AuthorizationCode)
    (hgrant : req.grant_type = "authorization_code")
    (happ : db.applications.find? (fun x => x.clientId == req.client_id) = some app)
    (hsec : app.clientSecret = req.client_secret)
    (hact : app.status = "active")
    (hsome : db.authCodes.find? (fun c => c.code == req.code) = some ac)
    (hexp : ac.expiresAt < now) :
    (OAuthService.exchangeCodeForToken db req now f a).fst =
      .error (.unauthorized "Authorization code has expired") := by
  simp [OAuthService.exchangeCodeForToken, hgrant, happ, hsec, hact, hsome, hexp]

lemma refresh_expired_fst (db : Db) (tok cid cs : String) (now : Nat)
    (new acc : String) (app : SsoApplication) (rt : RefreshTokenRec)
    (happ : db.applications.find? (fun a => a.clientId == cid) = some app)
    (hsec : app.clientSecret = cs)
    (hen : app.refreshTokenEnabled = true)
    (hsome : db.refreshTokens.find? (fun r => r.token == tok) = some rt)
    (hexp : rt.expiresAt < now) :
    (OAuthService.refreshToken db tok cid cs now new acc).fst =
      .error (.unauthorized "Refresh token has expired") := by
  simp [OAuthService.refreshToken, happ, hsec, hen, hsome, hexp]

/-- Concrete expired authorization code and a store containing it together
with an expired refresh token. -/
def cAcExp : AuthorizationCode :=
  { code := "old", userId := 7, applicationId := 1
    redirectUri := "https://app.test/cb", scope := "read", expiresAt := 100 }

def cRtExp : RefreshTokenRec :=
  { token := "rtold", userId := 7, applicationId := 1, scope := "read"
    expiresAt := 100, revoked := false }

def cDbExp : Db :=
  { applications := [cApp], authCodes := [cAcExp], refreshTokens := [cRtExp]
    lastLogins := [] }

def cReqNope : TokenRequest :=
  { grant_type := "authorization_code", code := "nope"
    redirect_uri := "https://app.test/cb", client_id := "cid"
    client_secret := "sec" }

def cReqOld : TokenRequest :=
  { grant_type := "authorization_code", code := "old"
    redirect_uri := "https://app.test/cb", client_id := "cid"
    client_secret := "sec" }

/-- Counterexample for C4: a never-stored code and an expired code yield
distinct error responses ("Invalid authorization code" vs "Authorization
code has expired"), so the two failure causes ARE distinguishable from the
response, contrary to the claim. -/
theorem token_errors_distinguishable_counterexample :
    (OAuthService.exchangeCodeForToken cDbExp cReqNope 1000 "f" "a").fst =
      .error (.unauthorized "Invalid authorization code") ∧
    (OAuthService.exchangeCodeForToken cDbExp cReqOld 1000 "f" "a").fst =
      .error (.unauthorized "Authorization code has expired") ∧
    (OAuthError.unauthorized "Invalid authorization code" ≠
      OAuthError.unauthorized "Authorization code has expired") := by
  refine ⟨rfl, rfl, by decide⟩

/-- C4 amended: both failure causes raise the same exception class
(UnauthorizedException, HTTP 401) — for codes "Invalid authorization code"
vs "Authorization code has expired", for refresh tokens "Invalid refresh
token" vs "Refresh token has expired" — but the error messages differ, so
the two causes are distinguishable from the response body. -/
theorem token_errors_same_class_distinct_messages
    (db : Db) (reqA reqB : TokenRequest) (tokA tokB cid cs : String)
    (nowA nowB : Nat) (fA aA fB aB nA cA nB cB : String)
    (app : SsoApplication) (ac : AuthorizationCode) (rt : RefreshTokenRec)
    (hgA : reqA.grant_type = "authorization_code")
    (hgB : reqB.grant_type = "authorization_code")
    (happA : db.applications.find? (fun x => x.clientId == reqA.client_id) = some app)
    (happB : db.applications.find? (fun x => x.clientId == reqB.client_id) = some app)
    (happR : db.applications.find? (fun x => x.clientId == cid) = some app)
    (hsecA : app.clientSecret = reqA.client_secret)
    (hsecB : app.clientSecret = reqB.client_secret)
    (hsecR : app.clientSecret = cs)
    (hact : app.status = "active")
    (hen : app.refreshTokenEnabled = true)
    (hnone : db.authCodes.find? (fun c => c.code == reqA.code) = none)
    (hsome : db.authCodes.find? (fun c => c.code == reqB.code) = some ac)
    (hexp : ac.expiresAt < nowB)
    (hnoneR : db.refreshTokens.find? (fun r => r.token == tokA) = none)
    (hsomeR : db.refreshTokens.find? (fun r => r.token == tokB) = some rt)
    (hexpR : rt.expiresAt < nowB) :
    (OAuthService.exchangeCodeForToken db reqA nowA fA aA).fst =
      .error (.unauthorized "Invalid authorization code") ∧
    (OAuthService.exchangeCodeForToken db reqB nowB fB aB).fst =
      .error (.unauthorized "Authorization code has expired") ∧
    (OAuthService.refreshToken db tokA cid cs nowA nA cA).fst =
      .error (.unauthorized "Invalid refresh token") ∧
    (OAuthService.refreshToken db tokB cid cs nowB nB cB).fst =
      .error (.unauthorized "Refresh token has expired") ∧
    (OAuthError.unauthorized "Invalid authorization code").isUnauthorized = true ∧
    (OAuthError.unauthorized "Authorization code has expired").isUnauthorized = true ∧
    (OAuthError.unauthorized "Invalid authorization code" ≠
      OAuthError.unauthorized "Authorization code has expired") ∧
    (OAuthError.unauthorized "Invalid refresh token" ≠
      OAuthError.unauthorized "Refresh token has expired") := by
  refine ⟨?_, ?_, ?_, ?_, by decide, by decide, by decide, by decide⟩
  · exact exchange_invalid_code_eq db reqA nowA fA aA app hgA happA hsecA hact hnone
  · exact exchange_expired_fst db reqB nowB fB aB app ac hgB happB hsecB hact hsome hexp
  · exact congrArg Prod.fst (refresh_invalid_eq db tokA cid cs nowA nA cA app
      happR hsecR hen hnoneR)
  · exact refresh_expired_fst db tokB cid cs nowB nB cB app rt happR hsecR hen
      hsomeR hexpR

/-- Witness for the amended C4 on the concrete store with an expired code
and an expired refresh token. -/
theorem token_errors_same_class_distinct_messages_witness :
    (OAuthService.exchangeCodeForToken cDbExp cReqNope 500 "fA" "aA").fst =
      .error (.unauthorized "Invalid authorization code") ∧
    (OAuthService.exchangeCodeForToken cDbExp cReqOld 1000 "fB" "aB").fst =
      .error (.unauthorized "Authorization code has expired") ∧
    (OAuthService.refreshToken cDbExp "rtnope" "cid" "sec" 500 "nA" "cA").fst =
      .error (.unauthorized "Invalid refresh token") ∧
    (OAuthService.refreshToken cDbExp "rtold" "cid" "sec" 1000 "nB" "cB").fst =
      .error (.unauthorized "Refresh token has expired") ∧
    (OAuthError.unauthorized "Invalid authorization code").isUnauthorized = true ∧
    (OAuthError.unauthorized "Authorization code has expired").isUnauthorized = true ∧
    (OAuthError.unauthorized "Invalid authorization code" ≠
      OAuthError.unauthorized "Authorization code has expired") ∧
    (OAuthError.unauthorized "Invalid refresh token" ≠
      OAuthError.unauthorized "Refresh token has expired") :=
  token_errors_same_class_distinct_messages cDbExp cReqNope cReqOld "rtnope"
    "rtold" "cid" "sec" 500 1000 "fA" "aA" "fB" "aB" "nA" "cA" "nB" "cB"
    cApp cAcExp cRtExp (by decide) (by decide) (by decide) (by decide)
    (by decide) (by decide) (by decide) (by decide) (by decide) (by decide)
    (by decide) (by decide) (by decide) (by decide) (by decide) (by decide)

/-! ### C5: token endpoint dispatch -/

/-- Concrete wire body sending `grant_type=refresh_token` to `/oauth/token`. -/
def cBodyRefreshAtToken : TokenBody :=
  { grant_type := some "refresh_token", code := some "rt0"
    redirect_uri := some "https://app.test/cb", client_id := some "cid"
    client_secret := some "sec" }

/-- Counterexample for C5: a `/oauth/token` request with
`grant_type=refresh_token` is NOT handled by the refresh operation — it
fails with the BadRequest from exchangeCodeForToken — even though the
refresh operation itself would succeed on the same store. -/
theorem token_endpoint_no_refresh_dispatch_counterexample :
    (OAuthController.token cDbR cBodyRefreshAtToken 500 "f" "a").fst =
      .error (.badRequest "Only \"authorization_code\" grant type is supported") ∧
    isSuccess (OAuthService.refreshToken cDbR "rt0" "cid" "sec" 500
      "rtA" "atA").fst = true :=
  ⟨rfl, by decide⟩

/-- C5 amended: `POST /oauth/token` always delegates to the code-exchange
operation; `grant_type=authorization_code` is handled there and any other
grant type (including `refresh_token`) fails with BadRequest. The refresh
operation is reachable only through the separate `POST /oauth/token/refresh`
endpoint, which requires `grant_type=refresh_token` (else BadRequest) and
then dispatches to the refresh operation. -/
theorem token_endpoint_dispatch
    (db : Db) (body : TokenBody) (rbody : RefreshBody) (now : Nat)
    (f a : String) (gt c ru cid cs rrt rcid rcs : String)
    (hgt : body.grant_type = some gt) (hgt0 : gt ≠ "")
    (hc : body.code = some c) (hc0 : c ≠ "")
    (hcid : body.client_id = some cid) (hcid0 : cid ≠ "")
    (hcs : body.client_secret = some cs) (hcs0 : cs ≠ "")
    (hru : body.redirect_uri = some ru) (hru0 : ru ≠ "")
    (hrt : rbody.refresh_token = some rrt) (hrt0 : rrt ≠ "")
    (hrcid : rbody.client_id = some rcid) (hrcid0 : rcid ≠ "")
    (hrcs : rbody.client_secret = some rcs) (hrcs0 : rcs ≠ "") :
    (OAuthController.token db body now f a =
      OAuthService.exchangeCodeForToken db
        { grant_type := gt, code := c, redirect_uri := ru
          client_id := cid, client_secret := cs } now f a) ∧
    (gt ≠ "authorization_code" →
      OAuthController.token db body now f a =
        (.error (.badRequest "Only \"authorization_code\" grant type is supported"), db)) ∧
    (OAuthController.refreshToken db rbody now f a =
      if rbody.grant_type = some "refresh_token" then
        OAuthService.refreshToken db rrt rcid rcs now f a
      else (.error (.badRequest "Invalid grant type"), db)) := by
  have h1 : OAuthController.token db body now f a =
      OAuthService.exchangeCodeForToken db
        { grant_type := gt, code := c, redirect_uri := ru
          client_id := cid, client_secret := cs } now f a := by
    simp [OAuthController.token, hgt, hc, hcid, hcs, hru, hgt0, hc0, hcid0,
      hcs0, hru0]
  refine ⟨h1, ?_, ?_⟩
  · intro hne
    rw [h1]
    simp [OAuthService.exchangeCodeForToken, hne]
  · by_cases hg : rbody.grant_type = some "refresh_token"
    · rw [if_pos hg]
      simp [OAuthController.refreshToken, hg, hrt, hrcid, hrcs, truthy,
        hrt0, hrcid0, hrcs0]
    · rw [if_neg hg]
      simp [OAuthController.refreshToken, hg]

/-- Witness for the amended C5: concrete authorization_code and
refresh_token requests dispatch as stated. -/
theorem token_endpoint_dispatch_witness :
    (OAuthController.token cDbR
        { grant_type := some "authorization_code", code := some "abc"
          redirect_uri := some "https://app.test/cb", client_id := some "cid"
          client_secret := some "sec" } 500 "f" "a" =
      OAuthService.exchangeCodeForToken cDbR
        { grant_type := "authorization_code", code := "abc"
          redirect_uri := "https://app.test/cb", client_id := "cid"
          client_secret := "sec" } 500 "f" "a") ∧
    (("authorization_code" : String) ≠ "authorization_code" →
      OAuthController.token cDbR
          { grant_type := some "authorization_code", code := some "abc"
            redirect_uri := some "https://app.test/cb", client_id := some "cid"
            client_secret := some "sec" } 500 "f" "a" =
        (.error (.badRequest "Only \"authorization_code\" grant type is supported"), cDbR)) ∧
    (OAuthController.refreshToken cDbR
        { grant_type := some "refresh_token", refresh_token := some "rt0"
          client_id := some "cid", client_secret := some "sec" } 500 "f" "a" =
      if ({ grant_type := some "refresh_token", refresh_token := some "rt0"
            client_id := some "cid", client_secret := some "sec" } : RefreshBody).grant_type =
          some "refresh_token" then
        OAuthService.refreshToken cDbR "rt0" "cid" "sec" 500 "f" "a"
      else (.error (.badRequest "Invalid grant type"), cDbR)) :=
  token_endpoint_dispatch cDbR
    { grant_type := some "authorization_code", code := some "abc"
      redirect_uri := some "https://app.test/cb", client_id := some "cid"
      client_secret := some "sec" }
    { grant_type := some "refresh_token", refresh_token := some "rt0"
      client_id := some "cid", client_secret := some "sec" }
    500 "f" "a" "authorization_code" "abc" "https://app.test/cb" "cid" "sec"
    "rt0" "cid" "sec" rfl (by decide) rfl (by decide) rfl (by decide) rfl
    (by decide) rfl (by decide) rfl (by decide) rfl (by decide) rfl (by decide)

/-! ### C6: authorize error delivery -/

/-- Concrete `/authorize` query with an unknown client and an
attacker-chosen redirect target. -/
def cQueryUnknownClient : AuthorizeQuery :=
  { response_type := some "code", client_id := some "ghost"
    redirect_uri := some "https://evil.example/cb", scope := none
    state := some "st" }

/-- Concrete unknown-client query whose redirect_uri does not parse as a
URL (`new URL("foo")` throws). -/
def cQueryBadUri : AuthorizeQuery :=
  { response_type := some "code", client_id := some "ghost"
    redirect_uri := some "foo", scope := none, state := none }

/-- Concrete query with no redirect_uri at all. -/
def cQueryNoUri : AuthorizeQuery :=
  { response_type := some "code", client_id := some "ghost"
    redirect_uri := none, scope := none, state := none }

/-- The WHATWG URL constructor's verdict on the strings occurring in the
concrete queries: the absolute https URLs parse, everything else (here
`"foo"`, `""`) makes `new URL` throw. -/
def cParseUrl (s : String) : Bool :=
  s == "https://evil.example/cb" || s == "https://app.test/cb"

/-- Counterexample for C6: an unknown `client_id` — a failure occurring
before any client/redirect-URI resolution — is still delivered as a
redirect to the request-supplied `redirect_uri` carrying
`error=server_error`, not as a direct HTTP error. -/
theorem authorize_unknown_client_redirect_counterexample :
    (OAuthController.authorize cDb cQueryUnknownClient 7 500 "fresh"
      cParseUrl).fst =
      .redirectError "https://evil.example/cb" "server_error"
        "SSO application not found" (some "st") := rfl

/-- C6 amended: every failure of the `/authorize` handler — including
unknown client_id and missing-parameter failures that occur before any
client resolution — is delivered as a redirect to the request's
`redirect_uri` with `error=server_error` and
`error_description=message`, whenever the query carries a redirect_uri
value that the URL constructor accepts; when the redirect_uri is absent
or unparseable (the URL constructor throws), the catch block itself
crashes and a direct non-redirect HTTP failure results. -/
theorem authorize_errors_redirect
    (db : Db) (q : AuthorizeQuery) (userId now : Nat) (fresh ru : String)
    (parseUrl : String → Bool) (e : OAuthError) (db1 : Db)
    (herr : OAuthController.authorizeTry db q userId now fresh = (.error e, db1)) :
    (q.redirect_uri = some ru → parseUrl ru = true →
      OAuthController.authorize db q userId now fresh parseUrl =
        (.redirectError ru "server_error" e.message (truthyOpt q.state), db1)) ∧
    (q.redirect_uri = some ru → parseUrl ru = false →
      OAuthController.authorize db q userId now fresh parseUrl =
        (.serverCrash, db1)) ∧
    (q.redirect_uri = none →
      OAuthController.authorize db q userId now fresh parseUrl =
        (.serverCrash, db1)) := by
  refine ⟨?_, ?_, ?_⟩ <;> intro h <;>
    first
    | (intro hp
       simp [OAuthController.authorize, herr, h, hp])
    | simp [OAuthController.authorize, herr, h]

/-- Witness for the amended C6: the unknown-client failure redirects when
the supplied URI parses, and crashes (direct HTTP failure) when the URI
is unparseable or absent. -/
theorem authorize_errors_redirect_witness :
    (OAuthController.authorize cDb cQueryUnknownClient 7 500 "fresh" cParseUrl =
      (.redirectError "https://evil.example/cb" "server_error"
        (OAuthError.notFound "SSO application not found").message
        (truthyOpt cQueryUnknownClient.state), cDb)) ∧
    (OAuthController.authorize cDb cQueryBadUri 7 500 "fresh" cParseUrl =
      (.serverCrash, cDb)) ∧
    (OAuthController.authorize cDb cQueryNoUri 7 500 "fresh" cParseUrl =
      (.serverCrash, cDb)) :=
  ⟨(authorize_errors_redirect cDb cQueryUnknownClient 7 500 "fresh"
      "https://evil.example/cb" cParseUrl (.notFound "SSO application not found")
      cDb rfl).1 rfl rfl,
   (authorize_errors_redirect cDb cQueryBadUri 7 500 "fresh" "foo" cParseUrl
      (.notFound "SSO application not found") cDb rfl).2.1 rfl rfl,
   (authorize_errors_redirect cDb cQueryNoUri 7 500 "fresh" "x" cParseUrl
      (.badRequest "Missing required parameters") cDb rfl).2.2 rfl⟩

/-! ### C7: scope containment at /authorize -/

/-- C7: scope containment. On an active client whose other validations
pass, a request whose scope list contains a token outside the client's
allowed set (the first such token being `s`) fails with BadRequest naming
`s` and leaves the store unchanged; a request whose tokens are all in the
allowed set succeeds, and the scope stored on the issued authorization
code is exactly the requested scope list (space-serialized, as scopes are
stored). -/
theorem authorize_scope_containment
    (db : Db) (req : AuthorizeRequest) (userId now : Nat) (fresh : String)
    (app : SsoApplication) (allowedStr s : String)
    (hrt : req.response_type = "code")
    (happ : db.applications.find? (fun a => a.clientId == req.client_id) = some app)
    (hact : app.status = "active")
    (hred : req.redirect_uri = app.redirectUri)
    (hscope : app.scope = some allowedStr) :
    ((requestedScopesOf req.scope).find?
        (fun t => !decide (t ∈ jsSplit allowedStr ' ')) = some s →
      OAuthService.authorize db req userId now fresh =
        (.error (.badRequest ("Scope \"" ++ s ++ "\" is not allowed")), db)) ∧
    ((∀ t ∈ requestedScopesOf req.scope, t ∈ jsSplit allowedStr ' ') →
      OAuthService.authorize db req userId now fresh =
        (.ok (fresh, req.state),
         { db with authCodes := db.authCodes ++
             [{ code := fresh, userId := userId, applicationId := app.id
                redirectUri := req.redirect_uri
                scope := " ".intercalate (requestedScopesOf req.scope)
                expiresAt := now + 10 * 60 * 1000 }] })) := by
  constructor
  · intro hbad
    simp [OAuthService.authorize, hrt, happ, hact, hred, hscope, hbad]
  · intro hgood
    have hnone : (requestedScopesOf req.scope).find?
        (fun t => !decide (t ∈ jsSplit allowedStr ' ')) = none := by
      apply List.find?_eq_none.mpr
      intro t ht
      simp [hgood t ht]
    simp [OAuthService.authorize, hrt, happ, hact, hred, hscope, hnone]

/-- Concrete authorize request asking for a disallowed scope. -/
def cAReqBad : AuthorizeRequest :=
  { response_type := "code", client_id := "cid"
    redirect_uri := "https://app.test/cb", scope := some "admin", state := none }

/-- Concrete authorize request asking for an allowed subset. -/
def cAReqGood : AuthorizeRequest :=
  { response_type := "code", client_id := "cid"
    redirect_uri := "https://app.test/cb", scope := some "read", state := none }

/-- Witness for C7: "admin" is rejected against the "read write" client;
"read" is granted and stored verbatim on the issued code. -/
theorem authorize_scope_containment_witness :
    (OAuthService.authorize cDb cAReqBad 7 500 "fresh" =
      (.error (.badRequest ("Scope \"" ++ "admin" ++ "\" is not allowed")), cDb)) ∧
    (OAuthService.authorize cDb cAReqGood 7 500 "fresh" =
      (.ok ("fresh", none),
       { cDb with authCodes := cDb.authCodes ++
           [{ code := "fresh", userId := 7, applicationId := cApp.id
              redirectUri := cAReqGood.redirect_uri
              scope := " ".intercalate (requestedScopesOf cAReqGood.scope)
              expiresAt := 500 + 10 * 60 * 1000 }] })) :=
  ⟨(authorize_scope_containment cDb cAReqBad 7 500 "fresh" cApp "read write"
      "admin" rfl (by decide) rfl rfl rfl).1 (by decide),
   (authorize_scope_containment cDb cAReqGood 7 500 "fresh" cApp "read write"
      "x" rfl (by decide) rfl rfl rfl).2 (by decide)⟩

/-! ### C8: SAML assertion-to-user resolution order -/

/-- Concrete user carrying the SAML nameID but a different email. -/
def cU1 : User :=
  { id := 1, email := "other@x", firstName := none, lastName := none
    samlUserId := some "nid" }

/-- Concrete user carrying the asserted email but no SAML id. -/
def cU2 : User :=
  { id := 2, email := "a@x", firstName := none, lastName := none
    samlUserId := none }

/-- Concrete SAML assertion: nameID "nid", email attribute "a@x". -/
def cSamlUser : SamlUser :=
  { nameID := "nid"
    attributes :=
      { email := some "a@x", emailClaim := none, firstName := none
        firstNameClaim := none, lastName := none, lastNameClaim := none } }

/-- SAML assertion with no email attribute at all. -/
def cSamlUserNoEmail : SamlUser :=
  { nameID := "nid2"
    attributes :=
      { email := none, emailClaim := none, firstName := none
        firstNameClaim := none, lastName := none, lastNameClaim := none } }

/-- SAML assertion whose only email information is an empty-string claim
attribute (falsy in JS, so the `if (email)` guard skips the lookup). -/
def cSamlUserEmptyEmail : SamlUser :=
  { nameID := "nid2"
    attributes :=
      { email := none, emailClaim := some "", firstName := none
        firstNameClaim := none, lastName := none, lastNameClaim := none } }

/-- Counterexample for C8: a user matching the email attribute exists
(id 2), yet the bridge resolves the nameID-matched user (id 1) and tries
to move ITS email onto the value held by user 2 — the write dies on the
unique `email` column (P2002 naming `email`). Under the claimed
email-first order the bridge would have targeted user 2, whose update
(setting `samlUserId := "nid"`, already held by user 1) would instead die
on the `samlUserId` constraint; the observed `email` violation shows the
nameID-matched user was resolved, refuting the claimed order. -/
theorem saml_email_first_counterexample :
    (UserService.findByEmail [cU1, cU2] "a@x").map (fun u => u.id) = some 2 ∧
    SamlService.createOrUpdateUser [cU1, cU2] cSamlUser 99 =
      .error "Unique constraint failed on the fields: (email)" :=
  ⟨by decide, rfl⟩

/-- C8 amended: the bridge resolves the user by `samlUserId = nameID`
FIRST; only when no user matches the nameID, and the email-attribute
chain is truthy (an empty-string email claim is skipped), does it fall
back to the email attribute; when neither yields a user it creates one.
The resolved record is updated from the assertion on each login, and the
clean-completion conclusions hold under the unique-column
(email/samlUserId) non-collision side conditions, without which the
underlying Prisma write throws. -/
theorem saml_resolution_order
    (users : List User) (su : SamlUser) (freshId : Nat) (u u2 : User)
    (email : String) :
    (UserService.findBySamlUserId users su.nameID = some u →
      users.any (fun v => v.id != u.id && v.email == (samlUserDataOf su).email) = false →
      users.any (fun v => v.id != u.id &&
        v.samlUserId == some (samlUserDataOf su).samlUserId) = false →
      users.find? (fun v => v.id == u.id) = some u →
      SamlService.createOrUpdateUser users su freshId =
        .ok (applySamlUserData (samlUserDataOf su) u,
             users.map (fun v => if v.id = u.id then
               applySamlUserData (samlUserDataOf su) v else v))) ∧
    (UserService.findBySamlUserId users su.nameID = none →
      truthyOpt (jsOr su.attributes.email su.attributes.emailClaim) = some email →
      UserService.findByEmail users email = some u2 →
      users.any (fun v => v.id != u2.id && v.email == (samlUserDataOf su).email) = false →
      users.any (fun v => v.id != u2.id &&
        v.samlUserId == some (samlUserDataOf su).samlUserId) = false →
      users.find? (fun v => v.id == u2.id) = some u2 →
      SamlService.createOrUpdateUser users su freshId =
        .ok (applySamlUserData (samlUserDataOf su) u2,
             users.map (fun v => if v.id = u2.id then
               applySamlUserData (samlUserDataOf su) v else v))) ∧
    (UserService.findBySamlUserId users su.nameID = none →
      truthyOpt (jsOr su.attributes.email su.attributes.emailClaim) = some email →
      UserService.findByEmail users email = none →
      users.any (fun v => v.email == (samlUserDataOf su).email) = false →
      users.any (fun v => v.samlUserId == some (samlUserDataOf su).samlUserId) = false →
      SamlService.createOrUpdateUser users su freshId =
        .ok ({ id := freshId, email := (samlUserDataOf su).email
               firstName := (samlUserDataOf su).firstName
               lastName := (samlUserDataOf su).lastName
               samlUserId := some (samlUserDataOf su).samlUserId },
             users ++
               [{ id := freshId, email := (samlUserDataOf su).email
                  firstName := (samlUserDataOf su).firstName
                  lastName := (samlUserDataOf su).lastName
                  samlUserId := some (samlUserDataOf su).samlUserId }])) ∧
    (UserService.findBySamlUserId users su.nameID = none →
      truthyOpt (jsOr su.attributes.email su.attributes.emailClaim) = none →
      users.any (fun v => v.email == (samlUserDataOf su).email) = false →
      users.any (fun v => v.samlUserId == some (samlUserDataOf su).samlUserId) = false →
      SamlService.createOrUpdateUser users su freshId =
        .ok ({ id := freshId, email := (samlUserDataOf su).email
               firstName := (samlUserDataOf su).firstName
               lastName := (samlUserDataOf su).lastName
               samlUserId := some (samlUserDataOf su).samlUserId },
             users ++
               [{ id := freshId, email := (samlUserDataOf su).email
                  firstName := (samlUserDataOf su).firstName
                  lastName := (samlUserDataOf su).lastName
                  samlUserId := some (samlUserDataOf su).samlUserId }])) := by
  refine ⟨?_, ?_, ?_, ?_⟩
  · intro h1 hc1 hc2 hfid
    simp [SamlService.createOrUpdateUser, UserService.update, h1, hc1, hc2, hfid]
  · intro h1 h2 h3 hc1 hc2 hfid
    simp [SamlService.createOrUpdateUser, UserService.update, h1, h2, h3,
      hc1, hc2, hfid]
  · intro h1 h2 h3 hc1 hc2
    simp [SamlService.createOrUpdateUser, UserService.create, h1, h2, h3,
      hc1, hc2]
  · intro h1 h2 hc1 hc2
    simp [SamlService.createOrUpdateUser, UserService.create, h1, h2, hc1, hc2]

/-- Witness for the amended C8: nameID hit, email fallback, creation when
the email matches nobody, and creation with the empty-string email claim
skipped (email falls back to the nameID), each on a concrete table. -/
theorem saml_resolution_order_witness :
    (SamlService.createOrUpdateUser [cU1] cSamlUser 99 =
      .ok (applySamlUserData (samlUserDataOf cSamlUser) cU1,
           [cU1].map (fun v => if v.id = cU1.id then
             applySamlUserData (samlUserDataOf cSamlUser) v else v))) ∧
    (SamlService.createOrUpdateUser [cU2] cSamlUser 99 =
      .ok (applySamlUserData (samlUserDataOf cSamlUser) cU2,
           [cU2].map (fun v => if v.id = cU2.id then
             applySamlUserData (samlUserDataOf cSamlUser) v else v))) ∧
    (SamlService.createOrUpdateUser [] cSamlUser 99 =
      .ok ({ id := 99, email := (samlUserDataOf cSamlUser).email
             firstName := (samlUserDataOf cSamlUser).firstName
             lastName := (samlUserDataOf cSamlUser).lastName
             samlUserId := some (samlUserDataOf cSamlUser).samlUserId },
           [] ++
             [{ id := 99, email := (samlUserDataOf cSamlUser).email
                firstName := (samlUserDataOf cSamlUser).firstName
                lastName := (samlUserDataOf cSamlUser).lastName
                samlUserId := some (samlUserDataOf cSamlUser).samlUserId }])) ∧
    (SamlService.createOrUpdateUser [] cSamlUserEmptyEmail 99 =
      .ok ({ id := 99, email := (samlUserDataOf cSamlUserEmptyEmail).email
             firstName := (samlUserDataOf cSamlUserEmptyEmail).firstName
             lastName := (samlUserDataOf cSamlUserEmptyEmail).lastName
             samlUserId := some (samlUserDataOf cSamlUserEmptyEmail).samlUserId },
           [] ++
             [{ id := 99, email := (samlUserDataOf cSamlUserEmptyEmail).email
                firstName := (samlUserDataOf cSamlUserEmptyEmail).firstName
                lastName := (samlUserDataOf cSamlUserEmptyEmail).lastName
                samlUserId := some (samlUserDataOf cSamlUserEmptyEmail).samlUserId }])) :=
  ⟨(saml_resolution_order [cU1] cSamlUser 99 cU1 cU1 "a@x").1 (by decide)
     (by decide) (by decide) (by decide),
   (saml_resolution_order [cU2] cSamlUser 99 cU1 cU2 "a@x").2.1 (by decide)
     (by decide) (by decide) (by decide) (by decide) (by decide),
   (saml_resolution_order [] cSamlUser 99 cU1 cU1 "a@x").2.2.1 (by decide)
     (by decide) (by decide) (by decide) (by decide),
   (saml_resolution_order [] cSamlUserEmptyEmail 99 cU1 cU1 "x").2.2.2
     (by decide) (by decide) (by decide) (by decide)⟩

/-! ### C9: webhook delivery bounded at 3 attempts -/

lemma retryStep_id (now : Nat) (deliver : Nat → Bool) (l : WebhookLog) :
    (WebhookService.retryStep now deliver l).id = l.id := by
  unfold WebhookService.retryStep
  repeat' split
  all_goals rfl

/-- C9: webhook delivery is bounded at 3 attempts. Starting from a failed
initial delivery (stored with the column-default attempt count 1 and a
5-minute retry time), two further failing sweeps drive the record to
attempt count 3 with `next_retry_at` cleared (terminal), and a later
sweep — at any time, whatever its delivery outcomes — neither attempts
that record a 4th time (its id is not among the attempted ids) nor
changes it. -/
theorem webhook_retry_bounded
    (logs : List WebhookLog) (id now0 now1 now2 now3 : Nat)
    (deliver3 : Nat → Bool)
    (hid : ∀ l ∈ logs, l.id ≠ id)
    (h1 : now0 + 5 * 60 * 1000 ≤ now1)
    (h2 : now1 + 2 ^ 1 * 5 * 60 * 1000 ≤ now2) :
    ({ id := id, status := "failed", attempt := 3, nextRetryAt := none
       deliveredAt := none } : WebhookLog) ∈
      (WebhookService.retryFailedWebhooks
        (WebhookService.retryFailedWebhooks
          (WebhookService.sendWebhook logs id now0 false)
          now1 (fun _ => false)).fst
        now2 (fun _ => false)).fst ∧
    id ∉ (WebhookService.retryFailedWebhooks
        (WebhookService.retryFailedWebhooks
          (WebhookService.retryFailedWebhooks
            (WebhookService.sendWebhook logs id now0 false)
            now1 (fun _ => false)).fst
          now2 (fun _ => false)).fst
        now3 deliver3).snd ∧
    ({ id := id, status := "failed", attempt := 3, nextRetryAt := none
       deliveredAt := none } : WebhookLog) ∈
      (WebhookService.retryFailedWebhooks
        (WebhookService.retryFailedWebhooks
          (WebhookService.retryFailedWebhooks
            (WebhookService.sendWebhook logs id now0 false)
            now1 (fun _ => false)).fst
          now2 (fun _ => false)).fst
        now3 deliver3).fst := by
  have s1 : WebhookService.retryStep now1 (fun _ => false)
      { id := id, status := "failed", attempt := 1
        nextRetryAt := some (now0 + 5 * 60 * 1000), deliveredAt := none } =
      { id := id, status := "failed", attempt := 2
        nextRetryAt := some (now1 + 2 ^ 1 * 5 * 60 * 1000), deliveredAt := none } := by
    simp [WebhookService.retryStep, retryDue, h1]
  have s2 : WebhookService.retryStep now2 (fun _ => false)
      { id := id, status := "failed", attempt := 2
        nextRetryAt := some (now1 + 2 ^ 1 * 5 * 60 * 1000), deliveredAt := none } =
      { id := id, status := "failed", attempt := 3, nextRetryAt := none
        deliveredAt := none } := by
    simp [WebhookService.retryStep, retryDue, h2]
    omega
  have e3 : (WebhookService.retryFailedWebhooks
      (WebhookService.retryFailedWebhooks
        (WebhookService.sendWebhook logs id now0 false)
        now1 (fun _ => false)).fst
      now2 (fun _ => false)).fst =
      ((logs.map (WebhookService.retryStep now1 (fun _ => false))).map
        (WebhookService.retryStep now2 (fun _ => false))) ++
      [{ id := id, status := "failed", attempt := 3, nextRetryAt := none
         deliveredAt := none }] := by
    show (((logs ++ [_]).map _).map _) = _
    rw [List.map_append, List.map_append]
    simp only [List.map_cons, List.map_nil, s1, s2]
  have hmem3 : ({ id := id, status := "failed", attempt := 3, nextRetryAt := none, deliveredAt := none } : WebhookLog) ∈
      (WebhookService.retryFailedWebhooks
        (WebhookService.retryFailedWebhooks
          (WebhookService.sendWebhook logs id now0 false)
          now1 (fun _ => false)).fst
        now2 (fun _ => false)).fst := by
    rw [e3]
    exact List.mem_append_right _ (List.mem_singleton.mpr rfl)
  refine ⟨hmem3, ?_, ?_⟩
  · intro habs
    obtain ⟨l, hl, hlid⟩ := List.mem_map.mp habs
    obtain ⟨hlmem, hldue⟩ := List.mem_filter.mp hl
    rw [e3] at hlmem
    rcases List.mem_append.mp hlmem with hin | hin
    · obtain ⟨l1, hl1, rfl⟩ := List.mem_map.mp hin
      obtain ⟨l0, hl0, rfl⟩ := List.mem_map.mp hl1
      rw [retryStep_id, retryStep_id] at hlid
      exact hid l0 hl0 hlid
    · rw [List.mem_singleton.mp hin] at hldue
      simp [retryDue] at hldue
  · exact List.mem_map.mpr ⟨_, hmem3, by simp [WebhookService.retryStep, retryDue]⟩

/-- Witness for C9: from an empty log table, record 5 fails at time 0,
fails again in the sweeps at 300000 and 900000, reaching attempt 3 with
no retry time; a much later sweep that would deliver everything does not
touch it. -/
theorem webhook_retry_bounded_witness :
    ({ id := 5, status := "failed", attempt := 3, nextRetryAt := none
       deliveredAt := none } : WebhookLog) ∈
      (WebhookService.retryFailedWebhooks
        (WebhookService.retryFailedWebhooks
          (WebhookService.sendWebhook [] 5 0 false)
          300000 (fun _ => false)).fst
        900000 (fun _ => false)).fst ∧
    5 ∉ (WebhookService.retryFailedWebhooks
        (WebhookService.retryFailedWebhooks
          (WebhookService.retryFailedWebhooks
            (WebhookService.sendWebhook [] 5 0 false)
            300000 (fun _ => false)).fst
          900000 (fun _ => false)).fst
        1000000000 (fun _ => true)).snd ∧
    ({ id := 5, status := "failed", attempt := 3, nextRetryAt := none
       deliveredAt := none } : WebhookLog) ∈
      (WebhookService.retryFailedWebhooks
        (WebhookService.retryFailedWebhooks
          (WebhookService.retryFailedWebhooks
            (WebhookService.sendWebhook [] 5 0 false)
            300000 (fun _ => false)).fst
          900000 (fun _ => false)).fst
        1000000000 (fun _ => true)).fst :=
  webhook_retry_bounded [] 5 0 300000 900000 1000000000 (fun _ => true)
    (by decide) (by decide) (by decide)

/-! ### C10: null application scope crashes authorize -/

/-- C10: for an authorize request that reaches the scope-validation step
(response_type "code", client resolved, active, redirect URI matching),
a client row whose nullable `scope` column is NULL makes
`application.scope.split(" ")` throw an untyped runtime TypeError — not a
typed validation error — leaving the store unchanged; when the column is
non-null the operation never produces that TypeError, so the
scope-validation branch is total exactly under the non-null precondition. -/
theorem authorize_null_scope_type_error
    (db : Db) (req : AuthorizeRequest) (userId now : Nat) (fresh : String)
    (app : SsoApplication) (s m : String)
    (hrt : req.response_type = "code")
    (happ : db.applications.find? (fun a => a.clientId == req.client_id) = some app)
    (hact : app.status = "active")
    (hred : req.redirect_uri = app.redirectUri) :
    (app.scope = none →
      OAuthService.authorize db req userId now fresh =
        (.error (.typeError "Cannot read properties of null (reading split)"), db)) ∧
    (app.scope = some s →
      (OAuthService.authorize db req userId now fresh).fst ≠
        .error (.typeError m)) := by
  constructor
  · intro hnull
    simp [OAuthService.authorize, hrt, happ, hact, hred, hnull]
  · intro hsome
    simp only [OAuthService.authorize, hrt, happ, hact, hred, hsome]
    cases hf : (requestedScopesOf req.scope).find?
        (fun t => !((jsSplit s ' ').contains t)) with
    | none => simp [hrt, happ, hact, hred, hsome, hf]
    | some t => simp [hrt, happ, hact, hred, hsome, hf]

/-- Concrete registered application whose `scope` column is NULL. -/
def cAppNull : SsoApplication :=
  { id := 2, clientId := "cidn", clientSecret := "sec"
    redirectUri := "https://app.test/cb", scope := none, status := "active"
    tokenExpirationTime := 3600, refreshTokenEnabled := true }

/-- Concrete store holding the NULL-scope application. -/
def cDbNull : Db :=
  { applications := [cAppNull], authCodes := [], refreshTokens := []
    lastLogins := [] }

/-- Concrete authorize request against the NULL-scope application. -/
def cAReqNull : AuthorizeRequest :=
  { response_type := "code", client_id := "cidn"
    redirect_uri := "https://app.test/cb", scope := some "read", state := none }

/-- Witness for C10: the NULL-scope client makes authorize crash with the
runtime TypeError. -/
theorem authorize_null_scope_type_error_witness :
    OAuthService.authorize cDbNull cAReqNull 7 500 "fresh" =
      (.error (.typeError "Cannot read properties of null (reading split)"),
       cDbNull) :=
  (authorize_null_scope_type_error cDbNull cAReqNull 7 500 "fresh" cAppNull
    "x" "y" rfl (by decide) rfl rfl).1 rfl
